import Mathlib

/-!
Verification of the `naturecc` replication pipeline (analysis.py, tables.py,
figures.py) against its natural-language specification.

The Python sources are shallowly embedded: every pandas DataFrame becomes a
`List` of row structures, positional row ids (`reset_index` + `.index`) become
`List.enum`, pandas `NaN`-able columns become `Option` fields (pandas `==`,
`isin`, `groupby`, `nunique` all treat `NaN` as never matching / dropped,
which `Option` filtering reproduces), Python numbers become `ℚ`, Python
`round` becomes round-half-to-even at the requested number of decimals, and
every Python statement that can raise (`ZeroDivisionError`, `KeyError`,
`ValueError`) becomes an `Except String` computation whose guards appear in
the source's evaluation order.  Where numpy-scalar arithmetic silently
produces `NaN` instead of raising (a pandas `Series.sum()` divided by zero),
the value is modelled as `none`.
-/

/-- Round a rational to the nearest integer, ties to even: the semantics of
Python 3 `round` (on values exactly representable, which covers every
computation analysed here).  Uses `Rat.floor` so the definition evaluates
inside the kernel. -/
def roundHalfEven (q : ℚ) : ℤ :=
  if q - q.floor < 1/2 then q.floor
  else if 1/2 < q - q.floor then q.floor + 1
  else if q.floor % 2 = 0 then q.floor else q.floor + 1

/-- Python `round(x, 1)`. -/
def pyRound1 (q : ℚ) : ℚ := (roundHalfEven (10 * q) : ℚ) / 10

/-- Python `round(x, 2)`. -/
def pyRound2 (q : ℚ) : ℚ := (roundHalfEven (100 * q) : ℚ) / 100

/-- Python `round(x, 3)`. -/
def pyRound3 (q : ℚ) : ℚ := (roundHalfEven (1000 * q) : ℚ) / 1000

/-! ### Generic insertion sort

Models Python `sorted(...)`, pandas `sort_values(...)` and the key ordering of
`json.dump(..., sort_keys=True)`.  `le` is a Boolean comparator; totality
(`le a b || le b a`) is all the sortedness proofs need. -/

/-- Insert `a` in front of the first element `b` with `le a b`. -/
def insertLe (le : α → α → Bool) (a : α) : List α → List α
  | [] => [a]
  | b :: t => if le a b then a :: b :: t else b :: insertLe le a t

/-- Insertion sort by the comparator `le`. -/
def sortLe (le : α → α → Bool) : List α → List α
  | [] => []
  | a :: t => insertLe le a (sortLe le t)

/-! ### String ordering (alphabetical, by code point)

Used for `sorted(...)` over institution names and for the alphabetical key
order of `json.dump(..., sort_keys=True)`. -/

/-- Lexicographic comparison of character lists by code point. -/
def charsLe : List Char → List Char → Bool
  | [], _ => true
  | _ :: _, [] => false
  | a :: as, b :: bs =>
    if a.toNat < b.toNat then true
    else if b.toNat < a.toNat then false
    else charsLe as bs

/-- Alphabetical (code-point lexicographic) order on strings. -/
def strLe (a b : String) : Bool := charsLe a.data b.data

/-! ### Data model (analysis.py, loaded CSV tables)

Row structures for the staged CSV files.  `Option` fields model columns where
pandas `NaN` can occur and is significant for the analysis (`isin`, `==`,
`dropna`, `groupby` and `nunique` all ignore `NaN`).  `Date` strings are
modelled post-`pd.to_datetime(..., errors="coerce")` as `Option ℤ` holding the
date encoded as the integer `YYYYMMDD` (order-isomorphic to calendar order for
valid dates); `none` is `NaT` (an unparseable date), for which every `>=`
comparison is `False`. -/

/-- A row of `speeches_raw.csv` (required columns of analysis.py line 50). -/
structure SpeechRow where
  institution : Option String
  institution_harmonised : Option String
  year : ℤ
  has_climate : Option Bool
  deriving DecidableEq

/-- A row of `minutes_raw.csv` (required columns of analysis.py line 55). -/
structure MinuteRow where
  institution : Option String
  date : Option ℤ
  year : ℤ
  language : String
  has_climate : Option Bool
  deriving DecidableEq

/-- A row of `excerpts_classified.csv` (required columns of analysis.py line 62). -/
structure ExRow where
  doc_type : String
  speech_id : Option ℤ
  minute_id : Option ℤ
  institution : Option String
  ensemble_level : Option ℚ
  openai_level : Option ℚ
  deriving DecidableEq

/-- All input tables read by `run_analysis` (analysis.py lines 42-48).
`stage1_s` / `stage1_m` are the `speech_id` / `minute_id` columns of the
keyword-filtered files; `speech_verified` / `minute_verified` are the verified
files, of which only the row count is consumed (lines 156-157). -/
structure Inputs where
  speeches : List SpeechRow
  minutes : List MinuteRow
  stage1_s : List ℤ
  stage1_m : List ℤ
  speech_verified : List ℤ
  minute_verified : List ℤ
  ex : List ExRow
  deriving DecidableEq

/-- `LAGARDE_APPOINTMENT_DATE = "2019-11-01"` (analysis.py line 18), as `YYYYMMDD`. -/
def LAGARDE_APPOINTMENT_DATE : ℤ := 20191101

/-- `LAGARDE_COUNT_WINDOW_START = "2019-07-01"` (analysis.py line 19), as `YYYYMMDD`. -/
def LAGARDE_COUNT_WINDOW_START : ℤ := 20190701

/-- `EXCLUDED_NON_CENTRAL` (analysis.py lines 21-26). -/
def EXCLUDED_NON_CENTRAL : List String :=
  ["Bank for International Settlements",
   "International Monetary Fund",
   "Office of the Superintendent of Financial Institutions",
   "Swiss Federal Banking Commission"]

namespace Analysis

/-- `speeches["speech_id"] = speeches.index` (line 68): rows tagged with their
positional id. -/
def speechesWithId (inp : Inputs) : List (ℤ × SpeechRow) :=
  inp.speeches.enum.map (fun p => ((p.1 : ℤ), p.2))

/-- `minutes["minute_id"] = minutes.index` (line 69). -/
def minutesWithId (inp : Inputs) : List (ℤ × MinuteRow) :=
  inp.minutes.enum.map (fun p => ((p.1 : ℤ), p.2))

/-- Is a speech row's harmonised institution in `EXCLUDED_NON_CENTRAL`?
pandas `isin` is `False` on `NaN`. -/
def isExcludedNonCentral (r : SpeechRow) : Bool :=
  match r.institution_harmonised with
  | some s => decide (s ∈ EXCLUDED_NON_CENTRAL)
  | none => false

/-- `speeches_core` (line 71): speeches whose harmonised institution is not in
the excluded set. -/
def speechesCore (inp : Inputs) : List (ℤ × SpeechRow) :=
  (speechesWithId inp).filter (fun p => !isExcludedNonCentral p.2)

/-- `speech_ids_verified` (line 73): non-null `speech_id`s of speech-type
excerpts (a Python set; only membership is consumed). -/
def speechIdsVerified (inp : Inputs) : List ℤ :=
  (inp.ex.filter (fun r => r.doc_type == "speech")).filterMap (fun r => r.speech_id)

/-- `minute_ids_verified` (line 74). -/
def minuteIdsVerified (inp : Inputs) : List ℤ :=
  (inp.ex.filter (fun r => r.doc_type == "minute")).filterMap (fun r => r.minute_id)

/-- `verified_speech_docs` (line 76): `nunique` of the non-null speech ids. -/
def verifiedSpeechDocs (inp : Inputs) : ℕ := (speechIdsVerified inp).dedup.length

/-- `verified_minute_docs` (line 77). -/
def verifiedMinuteDocs (inp : Inputs) : ℕ := (minuteIdsVerified inp).dedup.length

/-- `sorted(minutes["institution"].dropna().unique())` (line 80). -/
def pairedInstitutions (inp : Inputs) : List String :=
  sortLe strLe ((inp.minutes.filterMap (fun r => r.institution)).dedup)

/-- `s_sub = speeches[speeches["institution"] == inst]` (line 81); a `NaN`
institution never equals `inst`. -/
def sSub (inp : Inputs) (inst : String) : List (ℤ × SpeechRow) :=
  (speechesWithId inp).filter (fun p => p.2.institution == some inst)

/-- `m_sub = minutes[minutes["institution"] == inst]` (line 82). -/
def mSub (inp : Inputs) (inst : String) : List (ℤ × MinuteRow) :=
  (minutesWithId inp).filter (fun p => p.2.institution == some inst)

/-- A row of the paired institutional rate table (lines 85-91). -/
structure PairedRow where
  institution : String
  speech_rate : ℚ
  minute_rate : ℚ
  deriving DecidableEq

/-- The paired table loop (lines 79-92): institutions of the minutes table,
skipped (`continue`) when either document subset is empty, otherwise one row
with the two percentage rates. -/
def pairedRows (inp : Inputs) : List PairedRow :=
  (pairedInstitutions inp).filterMap (fun inst =>
    let s := sSub inp inst
    let m := mSub inp inst
    if s.length = 0 ∨ m.length = 0 then none
    else some
      { institution := inst
        speech_rate :=
          100 * ((s.filter (fun p => decide (p.1 ∈ speechIdsVerified inp))).length : ℚ)
            / (s.length : ℚ)
        minute_rate :=
          100 * ((m.filter (fun p => decide (p.1 ∈ minuteIdsVerified inp))).length : ℚ)
            / (m.length : ℚ) })

/-- `speech_levels` (line 95): non-null ensemble levels of speech excerpts. -/
def speechLevels (inp : Inputs) : List ℚ :=
  (inp.ex.filter (fun r => r.doc_type == "speech")).filterMap (fun r => r.ensemble_level)

/-- `minute_levels` (line 96). -/
def minuteLevels (inp : Inputs) : List ℚ :=
  (inp.ex.filter (fun r => r.doc_type == "minute")).filterMap (fun r => r.ensemble_level)

/-- `inst_submission` (lines 99-100): speech-excerpt institutions with the
Board of Governors harmonised to "Federal Reserve"; `nunique` of it. -/
def instSubmissionNunique (inp : Inputs) : ℕ :=
  (((inp.ex.filter (fun r => r.doc_type == "speech")).filterMap (fun r => r.institution)).map
    (fun s => if s = "Board of Governors of the Federal Reserve" then "Federal Reserve" else s)
    ).dedup.length

/-- `ecb = minutes[minutes["institution"] == "European Central Bank"]` (line 102). -/
def ecbMinutes (inp : Inputs) : List (ℤ × MinuteRow) :=
  (minutesWithId inp).filter (fun p => p.2.institution == some "European Central Bank")

/-- `ecb_lagarde_main` (line 104): ECB minutes dated on or after the count
window start; a `NaT` date fails the comparison. -/
def ecbLagardeMain (inp : Inputs) : List (ℤ × MinuteRow) :=
  (ecbMinutes inp).filter (fun p =>
    match p.2.date with
    | some d => decide (LAGARDE_COUNT_WINDOW_START ≤ d)
    | none => false)

/-- `ecb_lagarde_appointment_window` (line 105): the strict variant. -/
def ecbLagardeStrict (inp : Inputs) : List (ℤ × MinuteRow) :=
  (ecbMinutes inp).filter (fun p =>
    match p.2.date with
    | some d => decide (LAGARDE_APPOINTMENT_DATE ≤ d)
    | none => false)

/-- `ecb_ids` (lines 106-110): non-null minute ids of ECB minute excerpts. -/
def ecbIds (inp : Inputs) : List ℤ :=
  (inp.ex.filter (fun r =>
    r.doc_type == "minute" && r.institution == some "European Central Bank")).filterMap
    (fun r => r.minute_id)

/-- `stage1_s["speech_id"].nunique()` (lines 124, 132). -/
def stage1SNunique (inp : Inputs) : ℕ := inp.stage1_s.dedup.length

/-- `stage1_m["minute_id"].nunique()` (lines 125, 133). -/
def stage1MNunique (inp : Inputs) : ℕ := inp.stage1_m.dedup.length

/-- Mean of a list of rationals (pandas `Series.mean` on a nonempty series). -/
def listMean (l : List ℚ) : ℚ := l.sum / (l.length : ℚ)

/-- The `main_numbers` record (analysis.py lines 112-158), field per key. -/
structure MainNumbers where
  speech_total_core_sample : ℤ
  speech_institutions_core_sample : ℤ
  minute_total : ℤ
  minute_institutions : ℤ
  speech_period_start : ℤ
  speech_period_end : ℤ
  minute_period_start : ℤ
  minute_period_end : ℤ
  minute_languages : ℤ
  stage0_speech_docs : ℤ
  stage0_minute_docs : ℤ
  stage1_speech_docs : ℤ
  stage1_minute_docs : ℤ
  stage1_speech_excerpts : ℤ
  stage1_minute_excerpts : ℤ
  verified_speech_docs : ℤ
  verified_minute_docs : ℤ
  verified_speech_excerpts : ℤ
  verified_minute_excerpts : ℤ
  speech_false_positive_rate_pct : ℚ
  minute_false_positive_rate_pct : ℚ
  speech_rate_core_denom_pct : ℚ
  minute_rate_pct : ℚ
  gap_ratio : ℚ
  within_inst_speech_rate_pct : ℚ
  within_inst_minute_rate_pct : ℚ
  paired_t_stat : ℚ
  paired_t_p : ℚ
  mannwhitney_u : ℚ
  mannwhitney_p : ℚ
  speech_institutions_with_climate_submission_rule : ℤ
  minute_institutions_with_climate : ℤ
  ecb_lagarde_docs : ℤ
  ecb_lagarde_total : ℤ
  ecb_lagarde_rate_pct : Option ℚ
  ecb_lagarde_count_window_start : String
  ecb_lagarde_appointment_date_marker : String
  ecb_lagarde_total_if_strict_appointment_window : ℤ
  ecb_lagarde_rate_if_strict_appointment_window_pct : Option ℚ
  llm_openai_labels : ℤ
  llm_ensemble_labels : ℤ
  speech_verified_excerpts_file_rows : ℤ
  minute_verified_excerpts_file_rows : ℤ

/-- The values of the `main_numbers` dict (lines 112-158) as a total function.
`tRes` / `uRes` are the (statistic, p-value) pairs returned by the library
calls `scipy.stats.ttest_rel` (line 93) and `scipy.stats.mannwhitneyu`
(line 97); they are parameters because scipy is external library code.
Divisions are ℚ-divisions; `runAnalysisE` below adds, in source order, the
guards under which the pure-Python division expressions raise instead, so
that whenever `runAnalysisE` returns `ok` the junk value `x / 0` is never
taken.  The two ECB window rates (lines 147 and 152) are the exception: their
numerator is a pandas `Series.sum()`, a numpy scalar, so dividing it by the
Python int `0` does not raise but yields `NaN` (with a RuntimeWarning), which
`round` and `json.dump` propagate; these two fields are therefore `Option ℚ`,
with `none` for that `NaN`. -/
def mainNumbersPure (inp : Inputs) (tRes uRes : ℚ × ℚ) : MainNumbers :=
  { speech_total_core_sample := (speechesCore inp).length
    speech_institutions_core_sample :=
      (((speechesCore inp).filterMap (fun p => p.2.institution_harmonised)).dedup).length
    minute_total := inp.minutes.length
    minute_institutions := ((inp.minutes.filterMap (fun r => r.institution)).dedup).length
    speech_period_start := ((inp.speeches.map (fun r => r.year)).min?).getD 0
    speech_period_end := ((inp.speeches.map (fun r => r.year)).max?).getD 0
    minute_period_start := ((inp.minutes.map (fun r => r.year)).min?).getD 0
    minute_period_end := ((inp.minutes.map (fun r => r.year)).max?).getD 0
    minute_languages := ((inp.minutes.map (fun r => r.language)).dedup).length
    stage0_speech_docs :=
      (inp.speeches.filter (fun r => r.has_climate.getD false)).length
    stage0_minute_docs :=
      (inp.minutes.filter (fun r => r.has_climate.getD false)).length
    stage1_speech_docs := stage1SNunique inp
    stage1_minute_docs := stage1MNunique inp
    stage1_speech_excerpts := inp.stage1_s.length
    stage1_minute_excerpts := inp.stage1_m.length
    verified_speech_docs := verifiedSpeechDocs inp
    verified_minute_docs := verifiedMinuteDocs inp
    verified_speech_excerpts := (inp.ex.filter (fun r => r.doc_type == "speech")).length
    verified_minute_excerpts := (inp.ex.filter (fun r => r.doc_type == "minute")).length
    speech_false_positive_rate_pct :=
      pyRound1 (100 * (1 - (verifiedSpeechDocs inp : ℚ) / (stage1SNunique inp : ℚ)))
    minute_false_positive_rate_pct :=
      pyRound1 (100 * (1 - (verifiedMinuteDocs inp : ℚ) / (stage1MNunique inp : ℚ)))
    speech_rate_core_denom_pct :=
      pyRound1 (100 * (verifiedSpeechDocs inp : ℚ) / ((speechesCore inp).length : ℚ))
    minute_rate_pct :=
      pyRound1 (100 * (verifiedMinuteDocs inp : ℚ) / (inp.minutes.length : ℚ))
    gap_ratio :=
      pyRound1 (((verifiedSpeechDocs inp : ℚ) / ((speechesCore inp).length : ℚ))
        / ((verifiedMinuteDocs inp : ℚ) / (inp.minutes.length : ℚ)))
    within_inst_speech_rate_pct :=
      pyRound1 (listMean ((pairedRows inp).map (fun r => r.speech_rate)))
    within_inst_minute_rate_pct :=
      pyRound1 (listMean ((pairedRows inp).map (fun r => r.minute_rate)))
    paired_t_stat := pyRound2 tRes.1
    paired_t_p := pyRound3 tRes.2
    mannwhitney_u := uRes.1
    mannwhitney_p := pyRound3 uRes.2
    speech_institutions_with_climate_submission_rule := instSubmissionNunique inp
    minute_institutions_with_climate :=
      (((inp.ex.filter (fun r => r.doc_type == "minute")).filterMap
        (fun r => r.institution)).dedup).length
    ecb_lagarde_docs :=
      ((ecbLagardeMain inp).filter (fun p => decide (p.1 ∈ ecbIds inp))).length
    ecb_lagarde_total := (ecbLagardeMain inp).length
    ecb_lagarde_rate_pct :=
      if (ecbLagardeMain inp).length = 0 then none
      else some (pyRound1 (100 *
        (((ecbLagardeMain inp).filter (fun p => decide (p.1 ∈ ecbIds inp))).length : ℚ)
        / ((ecbLagardeMain inp).length : ℚ)))
    ecb_lagarde_count_window_start := "2019-07-01"
    ecb_lagarde_appointment_date_marker := "2019-11-01"
    ecb_lagarde_total_if_strict_appointment_window := (ecbLagardeStrict inp).length
    ecb_lagarde_rate_if_strict_appointment_window_pct :=
      if (ecbLagardeStrict inp).length = 0 then none
      else some (pyRound1 (100 *
        (((ecbLagardeStrict inp).filter (fun p => decide (p.1 ∈ ecbIds inp))).length : ℚ)
        / ((ecbLagardeStrict inp).length : ℚ)))
    llm_openai_labels := (inp.ex.filter (fun r => r.openai_level.isSome)).length
    llm_ensemble_labels := (inp.ex.filter (fun r => r.ensemble_level.isSome)).length
    speech_verified_excerpts_file_rows := inp.speech_verified.length
    minute_verified_excerpts_file_rows := inp.minute_verified.length }

/-- `run_analysis` up to the `main_numbers` record, with every raising Python
statement modelled as an `Except.error`, in source evaluation order:
* line 93: `paired_df["speech_rate"]` on an empty DataFrame (no columns) is a
  `KeyError`;
* line 97: `scipy.stats.mannwhitneyu` raises on an empty sample;
* lines 117-120: `int(series.min())` on an empty table is a `ValueError`
  (`NaN` to int);
* lines 132-136: `ZeroDivisionError` for each zero denominator of these
  pure-Python divisions (for the gap ratio, line 136, the denominator
  `verified_minute_docs / len(minutes)` is zero exactly when
  `verified_minute_docs == 0`, since `len(minutes)` was already forced
  nonzero at line 119).
The ECB window rates of lines 147 and 152 raise nothing even when their
window is empty: the numerator is a numpy scalar (`Series.sum()`), whose
division by zero silently yields `NaN`; the run completes and emits that
`NaN` (modelled as `none` in `mainNumbersPure`).
When no guard fires the emitted record is exactly `mainNumbersPure`. -/
def runAnalysisE (inp : Inputs) (tRes uRes : ℚ × ℚ) : Except String MainNumbers :=
  if pairedRows inp = [] then .error "KeyError: speech_rate"
  else if speechLevels inp = [] ∨ minuteLevels inp = [] then
    .error "ValueError: mannwhitneyu needs nonempty samples"
  else if inp.speeches = [] then .error "ValueError: speech year min of empty table"
  else if inp.minutes = [] then .error "ValueError: minute year min of empty table"
  else if stage1SNunique inp = 0 then .error "ZeroDivisionError: stage1 speech docs"
  else if stage1MNunique inp = 0 then .error "ZeroDivisionError: stage1 minute docs"
  else if (speechesCore inp).length = 0 then .error "ZeroDivisionError: core speech sample"
  else if verifiedMinuteDocs inp = 0 then .error "ZeroDivisionError: gap ratio denominator"
  else .ok (mainNumbersPure inp tRes uRes)

end Analysis

/-! ### Concrete datasets used as witnesses and counterexamples -/

/-- Shorthand: a speech row with no stage flags set. -/
def spRow (inst harm : Option String) (yr : ℤ) : SpeechRow :=
  { institution := inst, institution_harmonised := harm, year := yr, has_climate := none }

/-- Shorthand: an English minute row with no stage flags set. -/
def mnRow (inst : Option String) (d : Option ℤ) (yr : ℤ) : MinuteRow :=
  { institution := inst, date := d, year := yr, language := "English", has_climate := none }

/-- Shorthand: a verified speech excerpt. -/
def exSp (sid : ℤ) (inst : Option String) (lvl : Option ℚ) : ExRow :=
  { doc_type := "speech", speech_id := some sid, minute_id := none,
    institution := inst, ensemble_level := lvl, openai_level := none }

/-- Shorthand: a verified minute excerpt. -/
def exMn (mid : ℤ) (inst : Option String) (lvl : Option ℚ) : ExRow :=
  { doc_type := "minute", speech_id := none, minute_id := some mid,
    institution := inst, ensemble_level := lvl, openai_level := none }

/-- Dataset on which the analysis completes with speech rate `100·(1/6)` and
minute rate `100·(1/14)`: six core ECB speeches of which one is verified,
fourteen post-2019 ECB minutes of which one is verified. -/
def inpGap : Inputs :=
  { speeches := List.replicate 6 (spRow (some "European Central Bank") (some "ECB") 2000)
    minutes := List.replicate 14 (mnRow (some "European Central Bank") (some 20200101) 2020)
    stage1_s := [0]
    stage1_m := [0]
    speech_verified := []
    minute_verified := []
    ex := [exSp 0 (some "European Central Bank") (some 2),
           exMn 0 (some "European Central Bank") (some 2)] }

/-- Dataset on which the analysis completes although two verified speech
documents stand against a core sample of one (the other speech belongs to an
excluded non-central institution): the emitted core-denominator speech rate is
`200.0`. -/
def inpOver : Inputs :=
  { speeches := [spRow (some "European Central Bank")
                   (some "Bank for International Settlements") 2000,
                 spRow (some "European Central Bank") (some "ECB") 2000]
    minutes := [mnRow (some "European Central Bank") (some 20200101) 2020]
    stage1_s := [0, 1]
    stage1_m := [0]
    speech_verified := []
    minute_verified := []
    ex := [exSp 0 (some "European Central Bank") (some 2),
           exSp 1 (some "European Central Bank") (some 2),
           exMn 0 (some "European Central Bank") (some 2)] }

/-- A small dataset on which the analysis completes (used as witness input). -/
def inpSmall : Inputs :=
  { speeches := [spRow (some "European Central Bank") (some "ECB") 1999,
                 spRow (some "European Central Bank") (some "ECB") 2001]
    minutes := [mnRow (some "European Central Bank") (some 20200101) 2020,
                mnRow (some "European Central Bank") (some 20190801) 2019]
    stage1_s := [0, 1]
    stage1_m := [0]
    speech_verified := [0]
    minute_verified := [0]
    ex := [exSp 0 (some "European Central Bank") (some 1),
           exMn 0 (some "European Central Bank") (some 2)] }

/-- `inpSmall` with an empty stage-1 speech id list: a zero denominator at
analysis.py line 132. -/
def inpZeroStage1 : Inputs :=
  { speeches := [spRow (some "European Central Bank") (some "ECB") 1999]
    minutes := [mnRow (some "European Central Bank") (some 20200101) 2020]
    stage1_s := []
    stage1_m := [0]
    speech_verified := []
    minute_verified := []
    ex := [exSp 0 (some "European Central Bank") (some 1),
           exMn 0 (some "European Central Bank") (some 2)] }

/-- A dataset with no ECB minutes at all (both documents belong to the
Federal Reserve): every abort guard of the run passes, yet both ECB Lagarde
windows are empty, so lines 147 and 152 divide a numpy zero by zero. -/
def inpNoEcb : Inputs :=
  { speeches := [spRow (some "Federal Reserve") (some "FED") 1999]
    minutes := [mnRow (some "Federal Reserve") (some 20200101) 2020]
    stage1_s := [0]
    stage1_m := [0]
    speech_verified := []
    minute_verified := []
    ex := [exSp 0 (some "Federal Reserve") (some 1),
           exMn 0 (some "Federal Reserve") (some 2)] }

/-- `_require_columns(df, name, cols)` (analysis.py lines 33-36; figures.py
lines 26-29 is textually identical): collect the required columns absent from
the table's columns; if any, raise a `ValueError` carrying the table name and
the full missing list, else return normally.  The table itself was already
fully loaded by `pd.read_csv` before the check, and nothing mutates it: on
success the caller keeps the whole table, on failure the run aborts. -/
def requireColumns (name : String) (columns : List String) (required : List String) :
    Except (String × List String) Unit :=
  let missing := required.filter (fun c => decide (c ∉ columns))
  if missing.isEmpty then .ok () else .error (name, missing)

namespace Figures

/-- A row of a raw document table as consumed by the figure renderers
(figures.py `load_data`: the `year` column is required for both raw tables). -/
structure FigDocRow where
  year : ℤ
  deriving DecidableEq

/-- A row of the first-mention-lag dot plot (figures.py lines 312-319). -/
structure LagRow where
  institution : String
  first_speech : ℤ
  first_minute : ℤ
  lag : ℤ
  deriving DecidableEq

/-- `merge(raw[["id", "year"]], on="id", how="left")` for one id: the year of
the raw row at that positional id, `none` when the id matches no row (the
merged year is then `NaN`). -/
def yearOfDoc (raw : List FigDocRow) (i : ℤ) : Option ℤ :=
  (raw.enum.find? (fun p => (p.1 : ℤ) == i)).map (fun p => p.2.year)

/-- `groupby("institution")["year"].min()` for one institution over the
deduplicated (institution, id) pairs merged with the raw years: `NaN` years
(unmatched ids or null ids) are skipped, `none` when nothing remains. -/
def firstYear (pairs : List (Option String × Option ℤ)) (raw : List FigDocRow)
    (inst : String) : Option ℤ :=
  ((pairs.filter (fun p => p.1 == some inst)).filterMap
    (fun p => p.2.bind (yearOfDoc raw))).min?

/-- `fig_first_mention_lag` (figures.py lines 283-368) up to its computed
data: institutions present in both excerpt groupings, each with the first
speech year and first minute year (skipped when either is `NaN`), sorted by
descending lag; the mean lag (line 322) divides by `len(data)`, which raises
`ZeroDivisionError` when no institution qualifies. -/
def figFirstMentionLag (ex : List ExRow) (spRaw mnRaw : List FigDocRow) :
    Except String (List LagRow × ℚ) :=
  let spPairs := ((ex.filter (fun r => r.doc_type == "speech")).map
    (fun r => (r.institution, r.speech_id))).dedup
  let mnPairs := ((ex.filter (fun r => r.doc_type == "minute")).map
    (fun r => (r.institution, r.minute_id))).dedup
  let spInsts := (spPairs.filterMap (fun p => p.1)).dedup
  let mnInsts := (mnPairs.filterMap (fun p => p.1)).dedup
  let common := sortLe strLe (spInsts.filter (fun i => decide (i ∈ mnInsts)))
  let rows := common.filterMap (fun inst =>
    match firstYear spPairs spRaw inst, firstYear mnPairs mnRaw inst with
    | some sp, some mn =>
      some { institution := inst, first_speech := sp, first_minute := mn, lag := mn - sp }
    | _, _ => none)
  let data := sortLe (fun a b => decide (b.lag ≤ a.lag)) rows
  if data.length = 0 then .error "ZeroDivisionError: division by zero"
  else .ok (data, ((data.map (fun d => d.lag)).sum : ℚ) / (data.length : ℚ))

/-- The bar heights, sample sizes and title of `fig_commitment_grouped`
(figures.py lines 225-279).  The Mann-Whitney p shown in the title (line 274)
is the literal `0.029` baked into the format string, not a value read from the
emitted record. -/
structure FigCommitment where
  speech_n : ℕ
  minute_n : ℕ
  speech_pct : List ℚ
  minute_pct : List ℚ
  title_mw_p : ℚ
  deriving DecidableEq

/-- `levels_numeric = [1.0, 1.5, 2.0, 2.5, 3.0]` (figures.py line 230). -/
def commitmentLevels : List ℚ := [1, 3/2, 2, 5/2, 3]

/-- `fig_commitment_grouped` (figures.py lines 225-279). -/
def figCommitmentGrouped (ex : List ExRow) : FigCommitment :=
  let speech := (ex.filter (fun r => r.doc_type == "speech")).filterMap
    (fun r => r.ensemble_level)
  let minute := (ex.filter (fun r => r.doc_type == "minute")).filterMap
    (fun r => r.ensemble_level)
  { speech_n := speech.length
    minute_n := minute.length
    speech_pct := commitmentLevels.map (fun lv =>
      pyRound1 (100 * ((speech.filter (fun v => v == lv)).length : ℚ)
        / (speech.length : ℚ)))
    minute_pct := commitmentLevels.map (fun lv =>
      pyRound1 (100 * ((minute.filter (fun v => v == lv)).length : ℚ)
        / (minute.length : ℚ)))
    title_mw_p := 29/1000 }

end Figures

namespace Stats

/-- Modelled from the spec: the Mann-Whitney U statistic returned by
`scipy.stats.mannwhitneyu(x, y)` (scipy is external library code, not part of
this repository's sources): the number of sample pairs with `y < x`, ties
counted one half. -/
def mannwhitneyUStat (xs ys : List ℚ) : ℚ :=
  (xs.map (fun x => (ys.map (fun y =>
    if y < x then (1:ℚ) else if y = x then 1/2 else 0)).sum)).sum

/-- Modelled from the spec: the exact two-sided p-value of the rank-sum
comparison ("no assumption of normal distribution", spec §4.3), the
`method="exact"` branch scipy selects for small untied samples: over the
`C(n+m, n)` equally likely placements of the x-sample among the `n+m` ranks
(each placement's U statistic is `Σ (position − index)`),
`p = min(1, 2·min(P(U ≤ u₁), P(U ≥ u₁)))`. -/
def mannwhitneyExactPTwoSided (xs ys : List ℚ) : ℚ :=
  let n := xs.length
  let m := ys.length
  let u1 := mannwhitneyUStat xs ys
  let allU : List ℚ := (((List.range (n+m)).sublists).filter
      (fun s => decide (s.length = n))).map
    (fun s => (s.enum.map (fun p => ((p.2 : ℚ) - (p.1 : ℚ)))).sum)
  let ple : ℚ := ((allU.filter (fun v => decide (v ≤ u1))).length : ℚ) / (allU.length : ℚ)
  let pge : ℚ := ((allU.filter (fun v => decide (u1 ≤ v))).length : ℚ) / (allU.length : ℚ)
  min 1 (2 * min ple pge)

/-- Modelled from the spec: the `(U statistic, p-value)` pair of
`scipy.stats.mannwhitneyu(..., alternative="two-sided")` (analysis.py
line 97). -/
def mannwhitneyuTwoSided (xs ys : List ℚ) : ℚ × ℚ :=
  (mannwhitneyUStat xs ys, mannwhitneyExactPTwoSided xs ys)

end Stats

/-- A JSON/CSV cell value as emitted by the pipeline: Python ints, floats
(exact rationals here), strings, and the `NaN` float (which `json.dump`
serializes as the literal `NaN` by default).  `json.dump` and `to_csv` render
each deterministically, so equality of these values is equality of the
emitted bytes. -/
inductive PyVal where
  | int : ℤ → PyVal
  | rat : ℚ → PyVal
  | str : String → PyVal
  | nan : PyVal
  deriving DecidableEq

namespace Analysis

/-- The `main_numbers` dict (analysis.py lines 112-158) as an association
list, keys in the source's literal order. -/
def mainNumbersAssoc (m : MainNumbers) : List (String × PyVal) :=
  [("speech_total_core_sample", .int m.speech_total_core_sample),
   ("speech_institutions_core_sample", .int m.speech_institutions_core_sample),
   ("minute_total", .int m.minute_total),
   ("minute_institutions", .int m.minute_institutions),
   ("speech_period_start", .int m.speech_period_start),
   ("speech_period_end", .int m.speech_period_end),
   ("minute_period_start", .int m.minute_period_start),
   ("minute_period_end", .int m.minute_period_end),
   ("minute_languages", .int m.minute_languages),
   ("stage0_speech_docs", .int m.stage0_speech_docs),
   ("stage0_minute_docs", .int m.stage0_minute_docs),
   ("stage1_speech_docs", .int m.stage1_speech_docs),
   ("stage1_minute_docs", .int m.stage1_minute_docs),
   ("stage1_speech_excerpts", .int m.stage1_speech_excerpts),
   ("stage1_minute_excerpts", .int m.stage1_minute_excerpts),
   ("verified_speech_docs", .int m.verified_speech_docs),
   ("verified_minute_docs", .int m.verified_minute_docs),
   ("verified_speech_excerpts", .int m.verified_speech_excerpts),
   ("verified_minute_excerpts", .int m.verified_minute_excerpts),
   ("speech_false_positive_rate_pct", .rat m.speech_false_positive_rate_pct),
   ("minute_false_positive_rate_pct", .rat m.minute_false_positive_rate_pct),
   ("speech_rate_core_denom_pct", .rat m.speech_rate_core_denom_pct),
   ("minute_rate_pct", .rat m.minute_rate_pct),
   ("gap_ratio", .rat m.gap_ratio),
   ("within_inst_speech_rate_pct", .rat m.within_inst_speech_rate_pct),
   ("within_inst_minute_rate_pct", .rat m.within_inst_minute_rate_pct),
   ("paired_t_stat", .rat m.paired_t_stat),
   ("paired_t_p", .rat m.paired_t_p),
   ("mannwhitney_u", .rat m.mannwhitney_u),
   ("mannwhitney_p", .rat m.mannwhitney_p),
   ("speech_institutions_with_climate_submission_rule",
     .int m.speech_institutions_with_climate_submission_rule),
   ("minute_institutions_with_climate", .int m.minute_institutions_with_climate),
   ("ecb_lagarde_docs", .int m.ecb_lagarde_docs),
   ("ecb_lagarde_total", .int m.ecb_lagarde_total),
   ("ecb_lagarde_rate_pct",
     match m.ecb_lagarde_rate_pct with | some q => .rat q | none => .nan),
   ("ecb_lagarde_count_window_start", .str m.ecb_lagarde_count_window_start),
   ("ecb_lagarde_appointment_date_marker", .str m.ecb_lagarde_appointment_date_marker),
   ("ecb_lagarde_total_if_strict_appointment_window",
     .int m.ecb_lagarde_total_if_strict_appointment_window),
   ("ecb_lagarde_rate_if_strict_appointment_window_pct",
     match m.ecb_lagarde_rate_if_strict_appointment_window_pct with
     | some q => .rat q | none => .nan),
   ("llm_openai_labels", .int m.llm_openai_labels),
   ("llm_ensemble_labels", .int m.llm_ensemble_labels),
   ("speech_verified_excerpts_file_rows", .int m.speech_verified_excerpts_file_rows),
   ("minute_verified_excerpts_file_rows", .int m.minute_verified_excerpts_file_rows)]

/-- Key-wise alphabetical comparator on record entries. -/
def keyLe (a b : String × PyVal) : Bool := strLe a.1 b.1

/-- `json.dump(main_numbers, f, indent=2, sort_keys=True)` (analysis.py
line 161): the record is emitted with its keys in alphabetical order; the
serialized bytes are a deterministic function of this sorted association
list. -/
def serializeMainNumbers (m : MainNumbers) : List (String × PyVal) :=
  sortLe keyLe (mainNumbersAssoc m)

end Analysis

namespace Tables

open Analysis

/-- A row of `table1_overview.csv` (tables.py lines 28-59). -/
structure Table1Row where
  metric : String
  speeches : PyVal
  minutes : PyVal
  deriving DecidableEq

/-- `table1_overview(main_numbers)` (tables.py lines 28-59): a pure function
of the emitted record — the renderer consumes the record, it recomputes
nothing. -/
def table1Overview (m : MainNumbers) : List Table1Row :=
  [{ metric := "Total documents", speeches := .int m.speech_total_core_sample,
     minutes := .int m.minute_total },
   { metric := "Institutions", speeches := .int m.speech_institutions_core_sample,
     minutes := .int m.minute_institutions },
   { metric := "Period",
     speeches := .str (toString m.speech_period_start ++ "-" ++ toString m.speech_period_end),
     minutes := .str (toString m.minute_period_start ++ "-" ++ toString m.minute_period_end) },
   { metric := "Languages", speeches := .str "Predominantly English",
     minutes := .str (toString m.minute_languages ++ " languages") },
   { metric := "Stage 1 documents", speeches := .int m.stage1_speech_docs,
     minutes := .int m.stage1_minute_docs },
   { metric := "Stage 1 excerpts", speeches := .int m.stage1_speech_excerpts,
     minutes := .int m.stage1_minute_excerpts },
   { metric := "Stage 2 verified documents", speeches := .int m.verified_speech_docs,
     minutes := .int m.verified_minute_docs },
   { metric := "Stage 2 verified excerpts", speeches := .int m.verified_speech_excerpts,
     minutes := .int m.verified_minute_excerpts },
   { metric := "False positive rate (%)", speeches := .rat m.speech_false_positive_rate_pct,
     minutes := .rat m.minute_false_positive_rate_pct },
   { metric := "Climate mention rate (%)", speeches := .rat m.speech_rate_core_denom_pct,
     minutes := .rat m.minute_rate_pct },
   { metric := "Institutions with climate content",
     speeches := .int m.speech_institutions_with_climate_submission_rule,
     minutes := .int m.minute_institutions_with_climate }]

/-- A row of `table2_institution_heterogeneity.csv` (tables.py lines 96-120);
padding cells are the empty string as in the source. -/
structure Table2Row where
  climate_institution : String
  climate_docs : PyVal
  climate_excerpts : PyVal
  climate_period : String
  no_climate_institution : String
  no_climate_total_minutes : PyVal
  deriving DecidableEq

/-- One aggregated left-side row of table 2 before padding (tables.py
lines 69-89). -/
structure Table2Left where
  institution : String
  docs : ℕ
  excerpts : ℕ
  period_start : Option ℤ
  period_end : Option ℤ
  deriving DecidableEq

/-- `climate = ex[ex["doc_type"] == "minute"]` (tables.py line 69). -/
def climateExcerpts (inp : Inputs) : List ExRow :=
  inp.ex.filter (fun r => r.doc_type == "minute")

/-- The group keys of `climate.groupby("institution")` (null keys dropped,
keys sorted). -/
def climateInstitutions (inp : Inputs) : List String :=
  sortLe strLe (((climateExcerpts inp).filterMap (fun r => r.institution)).dedup)

/-- The year merged onto a minute id (`merge(minutes[["minute_id", "year"]],
how="left")`, tables.py line 76): `none` when the id matches no minute row. -/
def yearOfMinute (inp : Inputs) (mid : ℤ) : Option ℤ :=
  ((minutesWithId inp).find? (fun q => q.1 == mid)).map (fun q => q.2.year)

/-- The left side of table 2 (tables.py lines 70-83): per institution the
distinct minute count, the excerpt count and the min/max year of the
deduplicated (institution, minute id) pairs with a matched year, sorted by
document count descending then institution ascending. -/
def table2LeftRows (inp : Inputs) : List Table2Left :=
  sortLe (fun a b => decide (b.docs < a.docs)
      || (decide (a.docs = b.docs) && strLe a.institution b.institution))
    ((climateInstitutions inp).map (fun inst =>
      let grp := (climateExcerpts inp).filter (fun r => r.institution == some inst)
      let years := ((grp.map (fun r => (r.institution, r.minute_id))).dedup.filterMap
        (fun p => p.2.bind (yearOfMinute inp)))
      { institution := inst
        docs := (grp.filterMap (fun r => r.minute_id)).dedup.length
        excerpts := grp.length
        period_start := years.min?
        period_end := years.max? }))

/-- `_period_str` (tables.py lines 84-87). -/
def periodStr (a b : Option ℤ) : String :=
  match a, b with
  | some x, some y => toString x ++ "-" ++ toString y
  | _, _ => ""

/-- The right side of table 2 (tables.py lines 91-93): institutions of the
minutes table with no climate excerpts, with their total minute counts,
sorted by count descending then institution ascending. -/
def table2RightRows (inp : Inputs) : List (String × ℕ) :=
  sortLe (fun a b => decide (b.2 < a.2) || (decide (a.2 = b.2) && strLe a.1 b.1))
    ((sortLe strLe (((inp.minutes.filterMap (fun r => r.institution)).filter
        (fun i => decide (i ∉ climateInstitutions inp))).dedup)).map
      (fun inst => (inst, (inp.minutes.filter (fun r => r.institution == some inst)).length)))

/-- `table2_institution_heterogeneity` (tables.py lines 63-122): the two
sides padded with empty cells to equal length, plus the TOTAL row. -/
def table2Rows (inp : Inputs) : List Table2Row :=
  let left := table2LeftRows inp
  let right := table2RightRows inp
  let n := max left.length right.length
  ((List.range n).map (fun i =>
    { climate_institution :=
        match left.get? i with | some l => l.institution | none => ""
      climate_docs :=
        match left.get? i with | some l => .int l.docs | none => .str ""
      climate_excerpts :=
        match left.get? i with | some l => .int l.excerpts | none => .str ""
      climate_period :=
        match left.get? i with | some l => periodStr l.period_start l.period_end | none => ""
      no_climate_institution :=
        match right.get? i with | some r => r.1 | none => ""
      no_climate_total_minutes :=
        match right.get? i with | some r => .int r.2 | none => .str "" }))
  ++ [{ climate_institution := "TOTAL"
        climate_docs := .int ((left.map (fun l => l.docs)).sum : ℕ)
        climate_excerpts := .int ((left.map (fun l => l.excerpts)).sum : ℕ)
        climate_period := ""
        no_climate_institution := "TOTAL"
        no_climate_total_minutes := .int ((right.map (fun r => r.2)).sum : ℕ) }]

end Tables

/-- The pipeline's output files. -/
inductive OutFile where
  | jsonRecord : List (String × PyVal) → OutFile
  | pairedCsv : List Analysis.PairedRow → OutFile
  | table1Csv : List Tables.Table1Row → OutFile
  | table2Csv : List Tables.Table2Row → OutFile

/-- The output directory as a map from path to current file content. -/
def FsState : Type := String → Option OutFile

/-- A whole-file overwrite (`open(path, "w")` / `DataFrame.to_csv(path)`):
the new content replaces whatever was at the path; nothing is appended. -/
def writeFs (fs : FsState) (path : String) (content : OutFile) : FsState :=
  fun q => if q = path then some content else fs q

/-- `run_tables()` (tables.py lines 125-134) as a state transformer on the
output directory: run the analysis, and only if it succeeds write the metrics
record (analysis.py line 160), the paired-rate table (line 163) and the two
summary tables, each as a whole-file overwrite; a failed run writes nothing. -/
def applyRunTables (fs : FsState) (inp : Inputs) (t u : ℚ × ℚ) : FsState :=
  match Analysis.runAnalysisE inp t u with
  | .error _ => fs
  | .ok m =>
    writeFs (writeFs (writeFs (writeFs fs
      "outputs/analysis/main_numbers.json"
        (.jsonRecord (Analysis.serializeMainNumbers m)))
      "outputs/analysis/within_institution_rates.csv"
        (.pairedCsv (Analysis.pairedRows inp)))
      "outputs/tables/table1_overview.csv"
        (.table1Csv (Tables.table1Overview m)))
      "outputs/tables/table2_institution_heterogeneity.csv"
        (.table2Csv (Tables.table2Rows inp))

/-! ### Theorems -/

theorem ratFloor_eq_floor (q : ℚ) : q.floor = ⌊q⌋ :=
  (Rat.floor_def' q).trans Rat.floor_def.symm

theorem roundHalfEven_eq_floor_or_succ (q : ℚ) :
    roundHalfEven q = ⌊q⌋ ∨ roundHalfEven q = ⌊q⌋ + 1 := by
  unfold roundHalfEven
  rw [ratFloor_eq_floor]
  split
  · exact Or.inl rfl
  · split
    · exact Or.inr rfl
    · split
      · exact Or.inl rfl
      · exact Or.inr rfl

theorem roundHalfEven_nonneg {q : ℚ} (h : 0 ≤ q) : 0 ≤ roundHalfEven q := by
  rcases roundHalfEven_eq_floor_or_succ q with h' | h' <;> rw [h']
  · exact Int.floor_nonneg.mpr h
  · have := Int.floor_nonneg.mpr h
    omega

theorem roundHalfEven_le_of_le {q : ℚ} {n : ℤ} (h : q ≤ (n : ℚ)) :
    roundHalfEven q ≤ n := by
  unfold roundHalfEven
  rw [ratFloor_eq_floor]
  have hfl : ⌊q⌋ ≤ n := by
    have := Int.floor_le_floor h
    simpa using this
  split
  · exact hfl
  case isFalse h1 =>
    have hr : (1:ℚ)/2 ≤ q - ⌊q⌋ := le_of_not_lt h1
    have hlt : (⌊q⌋ : ℚ) < q := by linarith
    have hltn : ⌊q⌋ < n := by
      have : (⌊q⌋ : ℚ) < (n : ℚ) := lt_of_lt_of_le hlt h
      exact_mod_cast this
    split
    · omega
    · split
      · exact hfl
      · omega

/-- `0 ≤ q ≤ 100 → 0 ≤ round(q, 1) ≤ 100`. -/
theorem pyRound1_mem_Icc {q : ℚ} (h0 : 0 ≤ q) (h1 : q ≤ 100) :
    0 ≤ pyRound1 q ∧ pyRound1 q ≤ 100 := by
  unfold pyRound1
  have hn : 0 ≤ roundHalfEven (10 * q) := roundHalfEven_nonneg (by linarith)
  have hu : roundHalfEven (10 * q) ≤ 1000 := by
    apply roundHalfEven_le_of_le
    push_cast
    linarith
  constructor
  · positivity
  · rw [div_le_iff₀ (by norm_num : (0:ℚ) < 10)]
    calc (roundHalfEven (10 * q) : ℚ) ≤ 1000 := by exact_mod_cast hu
    _ = 100 * 10 := by norm_num

theorem roundHalfEven_eq_low {q : ℚ} {n : ℤ} (hl : (n : ℚ) ≤ q) (hu : q - n < 1/2) :
    roundHalfEven q = n := by
  have hfl : ⌊q⌋ = n := Int.floor_eq_iff.mpr ⟨hl, by linarith⟩
  unfold roundHalfEven
  rw [ratFloor_eq_floor, hfl, if_pos hu]

theorem roundHalfEven_eq_high {q : ℚ} {n : ℤ} (hge : (n : ℚ) ≤ q)
    (hl : 1/2 < q - n) (hu : q < (n : ℚ) + 1) :
    roundHalfEven q = n + 1 := by
  have hfl : ⌊q⌋ = n := Int.floor_eq_iff.mpr ⟨hge, by linarith⟩
  unfold roundHalfEven
  rw [ratFloor_eq_floor, hfl, if_neg (by linarith), if_pos hl]

theorem pyRound1_eq_low {q : ℚ} {n : ℤ} (hl : (n : ℚ) ≤ 10 * q)
    (hu : 10 * q - n < 1/2) : pyRound1 q = (n : ℚ) / 10 := by
  unfold pyRound1
  rw [roundHalfEven_eq_low hl hu]

theorem pyRound1_eq_high {q : ℚ} {n : ℤ} (hge : (n : ℚ) ≤ 10 * q)
    (hl : 1/2 < 10 * q - n) (hu : 10 * q < (n : ℚ) + 1) :
    pyRound1 q = ((n : ℚ) + 1) / 10 := by
  unfold pyRound1
  rw [roundHalfEven_eq_high hge hl hu]
  push_cast
  ring

/-- `(100·a/b) / (100·c/d) = (a/b) / (c/d)` (with junk division, still an
identity in ℚ). -/
theorem hundred_rate_ratio (a b c d : ℚ) :
    (100 * a / b) / (100 * c / d) = (a / b) / (c / d) := by
  rw [@mul_div_assoc ℚ _ 100 c d, @mul_div_assoc ℚ _ 100 a b,
    mul_div_mul_left _ _ (show (100:ℚ) ≠ 0 by norm_num)]

theorem mem_insertLe (le : α → α → Bool) (a x : α) (l : List α) :
    x ∈ insertLe le a l ↔ x = a ∨ x ∈ l := by
  induction l with
  | nil => simp [insertLe]
  | cons b t ih =>
    simp only [insertLe]
    split
    · simp
    · simp [ih]
      tauto

theorem mem_sortLe (le : α → α → Bool) (x : α) (l : List α) :
    x ∈ sortLe le l ↔ x ∈ l := by
  induction l with
  | nil => simp [sortLe]
  | cons a t ih => simp [sortLe, mem_insertLe, ih]

theorem length_insertLe (le : α → α → Bool) (a : α) (l : List α) :
    (insertLe le a l).length = l.length + 1 := by
  induction l with
  | nil => rfl
  | cons b t ih =>
    simp only [insertLe]
    split <;> simp [ih]

theorem length_sortLe (le : α → α → Bool) (l : List α) :
    (sortLe le l).length = l.length := by
  induction l with
  | nil => rfl
  | cons a t ih => simp [sortLe, length_insertLe, ih]

theorem chain'_insertLe (le : α → α → Bool)
    (total : ∀ x y, le x y = true ∨ le y x = true) (a : α) {l : List α}
    (h : List.Chain' (fun x y => le x y = true) l) :
    List.Chain' (fun x y => le x y = true) (insertLe le a l) := by
  induction l with
  | nil => simp [insertLe]
  | cons b t ih =>
    simp only [insertLe]
    split
    case isTrue hab =>
      exact List.Chain'.cons hab h
    case isFalse hab =>
      have hba : le b a = true := by
        rcases total a b with h' | h'
        · exact absurd h' hab
        · exact h'
      have ht : List.Chain' (fun x y => le x y = true) t := h.tail
      have hins := ih ht
      cases t with
      | nil => simpa [insertLe] using hba
      | cons c u =>
        simp only [insertLe] at hins ⊢
        split
        case isTrue hac =>
          exact List.Chain'.cons hba (by simpa [insertLe, hac] using hins)
        case isFalse hac =>
          have hbc : le b c = true := (List.chain'_cons.mp h).1
          exact List.Chain'.cons hbc (by simpa [insertLe, hac] using hins)

theorem mem_map_sortLe (le : α → α → Bool) (l : List α) (f : α → β) (k : β) :
    k ∈ (sortLe le l).map f ↔ k ∈ l.map f := by
  simp only [List.mem_map]
  constructor
  · rintro ⟨p, hp, hk⟩
    exact ⟨p, (mem_sortLe le p l).mp hp, hk⟩
  · rintro ⟨p, hp, hk⟩
    exact ⟨p, (mem_sortLe le p l).mpr hp, hk⟩

theorem chain'_sortLe (le : α → α → Bool)
    (total : ∀ x y, le x y = true ∨ le y x = true) (l : List α) :
    List.Chain' (fun x y => le x y = true) (sortLe le l) := by
  induction l with
  | nil => simp [sortLe]
  | cons a t ih => exact chain'_insertLe le total a ih

theorem charsLe_total : ∀ a b : List Char, charsLe a b = true ∨ charsLe b a = true
  | [], _ => Or.inl rfl
  | _ :: _, [] => Or.inr rfl
  | a :: as, b :: bs => by
    simp only [charsLe]
    rcases Nat.lt_trichotomy a.toNat b.toNat with h | h | h
    · simp [h]
    · simp [h, Nat.lt_irrefl]
      exact charsLe_total as bs
    · simp [h, Nat.lt_asymm h]

theorem strLe_total (a b : String) : strLe a b = true ∨ strLe b a = true :=
  charsLe_total a.data b.data

namespace Analysis

/-- The run reaches the output writes exactly when every guard passes. -/
theorem runAnalysisE_isOk_iff (inp : Inputs) (tRes uRes : ℚ × ℚ) :
    (runAnalysisE inp tRes uRes).isOk = true ↔
      pairedRows inp ≠ [] ∧ ¬(speechLevels inp = [] ∨ minuteLevels inp = []) ∧
      inp.speeches ≠ [] ∧ inp.minutes ≠ [] ∧
      stage1SNunique inp ≠ 0 ∧ stage1MNunique inp ≠ 0 ∧
      (speechesCore inp).length ≠ 0 ∧ verifiedMinuteDocs inp ≠ 0 := by
  unfold runAnalysisE
  repeat' split
  all_goals simp_all [Except.isOk, Except.toBool]

/-- When every guard passes the emitted record is `mainNumbersPure`. -/
theorem runAnalysisE_eq_ok (inp : Inputs) (tRes uRes : ℚ × ℚ)
    (h : (runAnalysisE inp tRes uRes).isOk = true) :
    runAnalysisE inp tRes uRes = .ok (mainNumbersPure inp tRes uRes) := by
  unfold runAnalysisE at h ⊢
  repeat' split at h
  all_goals simp_all [Except.isOk, Except.toBool]

theorem speechesWithId_map_snd (inp : Inputs) :
    (speechesWithId inp).map Prod.snd = inp.speeches := by
  unfold speechesWithId
  rw [List.map_map]
  exact List.enum_map_snd inp.speeches

theorem minutesWithId_map_snd (inp : Inputs) :
    (minutesWithId inp).map Prod.snd = inp.minutes := by
  unfold minutesWithId
  rw [List.map_map]
  exact List.enum_map_snd inp.minutes

theorem length_speechesWithId (inp : Inputs) :
    (speechesWithId inp).length = inp.speeches.length := by
  unfold speechesWithId
  rw [List.length_map, List.enum_length]

theorem length_minutesWithId (inp : Inputs) :
    (minutesWithId inp).length = inp.minutes.length := by
  unfold minutesWithId
  rw [List.length_map, List.enum_length]

theorem exists_speechesWithId_iff (inp : Inputs) (P : SpeechRow → Prop) :
    (∃ p ∈ speechesWithId inp, P p.2) ↔ ∃ r ∈ inp.speeches, P r := by
  constructor
  · rintro ⟨p, hp, hP⟩
    refine ⟨p.2, ?_, hP⟩
    rw [← speechesWithId_map_snd inp]
    exact List.mem_map_of_mem Prod.snd hp
  · rintro ⟨r, hr, hP⟩
    rw [← speechesWithId_map_snd inp] at hr
    rcases List.mem_map.mp hr with ⟨p, hp, hpr⟩
    exact ⟨p, hp, hpr ▸ hP⟩

theorem exists_minutesWithId_iff (inp : Inputs) (P : MinuteRow → Prop) :
    (∃ p ∈ minutesWithId inp, P p.2) ↔ ∃ r ∈ inp.minutes, P r := by
  constructor
  · rintro ⟨p, hp, hP⟩
    refine ⟨p.2, ?_, hP⟩
    rw [← minutesWithId_map_snd inp]
    exact List.mem_map_of_mem Prod.snd hp
  · rintro ⟨r, hr, hP⟩
    rw [← minutesWithId_map_snd inp] at hr
    rcases List.mem_map.mp hr with ⟨p, hp, hpr⟩
    exact ⟨p, hp, hpr ▸ hP⟩

theorem mem_pairedInstitutions_iff (inp : Inputs) (inst : String) :
    inst ∈ pairedInstitutions inp ↔ ∃ m ∈ inp.minutes, m.institution = some inst := by
  unfold pairedInstitutions
  rw [mem_sortLe, List.mem_dedup, List.mem_filterMap]

theorem sSub_ne_nil_iff (inp : Inputs) (inst : String) :
    sSub inp inst ≠ [] ↔ ∃ s ∈ inp.speeches, s.institution = some inst := by
  unfold sSub
  rw [Ne, List.filter_eq_nil_iff]
  push_neg
  simp only [beq_iff_eq, ne_eq, Decidable.not_not]
  exact exists_speechesWithId_iff inp (fun r => r.institution = some inst)

theorem mSub_ne_nil_iff (inp : Inputs) (inst : String) :
    mSub inp inst ≠ [] ↔ ∃ m ∈ inp.minutes, m.institution = some inst := by
  unfold mSub
  rw [Ne, List.filter_eq_nil_iff]
  push_neg
  simp only [beq_iff_eq, ne_eq, Decidable.not_not]
  exact exists_minutesWithId_iff inp (fun r => r.institution = some inst)

theorem mem_pairedRows_iff (inp : Inputs) (r : PairedRow) :
    r ∈ pairedRows inp ↔ ∃ inst ∈ pairedInstitutions inp,
      ¬((sSub inp inst).length = 0 ∨ (mSub inp inst).length = 0) ∧
      r = { institution := inst
            speech_rate := 100 * (((sSub inp inst).filter
                (fun p => decide (p.1 ∈ speechIdsVerified inp))).length : ℚ)
              / ((sSub inp inst).length : ℚ)
            minute_rate := 100 * (((mSub inp inst).filter
                (fun p => decide (p.1 ∈ minuteIdsVerified inp))).length : ℚ)
              / ((mSub inp inst).length : ℚ) } := by
  unfold pairedRows
  rw [List.mem_filterMap]
  constructor
  · rintro ⟨inst, hinst, hf⟩
    dsimp only at hf
    split at hf
    case isTrue h => exact absurd hf (by simp)
    case isFalse h =>
      exact ⟨inst, hinst, h, (Option.some_inj.mp hf).symm⟩
  · rintro ⟨inst, hinst, hc, hr⟩
    refine ⟨inst, hinst, ?_⟩
    dsimp only
    rw [if_neg hc]
    exact congrArg some hr.symm

end Analysis

open Analysis in
/-- C1: an institution has a row in the paired institutional rate table iff it
occurs (with at least one document, i.e. one row) in both the speech table and
the minute table; in particular an institution with speeches but no minutes
never appears.  The second conjunct records that the exclusion is a filter
applied before any rate is computed: every institution that does get a row has
nonempty speech and minute subsets, so its two divisions have nonzero
denominators (the loop body of analysis.py lines 83-84 `continue`s before the
divisions of lines 88-89, and no error is caught). -/
theorem C1_paired_table_iff_present_in_both (inp : Inputs) (inst : String) :
    ((∃ r ∈ pairedRows inp, r.institution = inst) ↔
      ((∃ s ∈ inp.speeches, s.institution = some inst) ∧
       (∃ m ∈ inp.minutes, m.institution = some inst))) ∧
    ∀ r ∈ pairedRows inp,
      (sSub inp r.institution).length ≠ 0 ∧ (mSub inp r.institution).length ≠ 0 := by
  constructor
  · constructor
    · rintro ⟨r, hr, hri⟩
      rcases (mem_pairedRows_iff inp r).mp hr with ⟨i, hi, hc, hre⟩
      push_neg at hc
      have hiinst : i = inst := by rw [hre] at hri; exact hri
      subst hiinst
      constructor
      · exact (sSub_ne_nil_iff inp i).mp (fun hnil => hc.1 (by rw [hnil]; rfl))
      · exact (mem_pairedInstitutions_iff inp i).mp hi
    · rintro ⟨hs, hm⟩
      have hin : inst ∈ pairedInstitutions inp := (mem_pairedInstitutions_iff inp inst).mpr hm
      have hsne : sSub inp inst ≠ [] := (sSub_ne_nil_iff inp inst).mpr hs
      have hmne : mSub inp inst ≠ [] := (mSub_ne_nil_iff inp inst).mpr hm
      refine ⟨_, (mem_pairedRows_iff inp _).mpr ⟨inst, hin, ?_, rfl⟩, rfl⟩
      push_neg
      exact ⟨fun h => hsne (List.length_eq_zero.mp h), fun h => hmne (List.length_eq_zero.mp h)⟩
  · intro r hr
    rcases (mem_pairedRows_iff inp r).mp hr with ⟨i, _, hc, hre⟩
    push_neg at hc
    rw [hre]
    exact hc

open Analysis in
/-- Witness for C1 at a concrete dataset: the ECB, present in both tables of
`inpSmall`, has a paired-table row, and that row passed the nonempty filters. -/
theorem C1_paired_table_iff_present_in_both_witness :
    (∃ r ∈ pairedRows inpSmall, r.institution = "European Central Bank") ∧
    ∀ r ∈ pairedRows inpSmall,
      (sSub inpSmall r.institution).length ≠ 0 ∧
      (mSub inpSmall r.institution).length ≠ 0 :=
  ⟨(C1_paired_table_iff_present_in_both inpSmall "European Central Bank").1.mpr
      ⟨by decide, by decide⟩,
   (C1_paired_table_iff_present_in_both inpSmall "European Central Bank").2⟩

namespace Analysis

theorem length_filter_speeches (inp : Inputs) (f : SpeechRow → Bool) :
    ((speechesWithId inp).filter (fun p => f p.2)).length
      = (inp.speeches.filter f).length := by
  conv_rhs => rw [← speechesWithId_map_snd inp]
  rw [List.filter_map, List.length_map]
  rfl

end Analysis

open Analysis in
/-- C8: the core speech sample is the exact-match exclusion of the four named
non-central institutions on the harmonised-name column:
`count(core) = count(all speeches) − count(speeches in the excluded set)`, the
two parts partition the speech table, and a (positionally-tagged) speech row
is in the core sample iff it is a speech row whose harmonised institution is
not in the excluded set — so no other rows are removed. -/
theorem C8_core_sample_count_identity (inp : Inputs) :
    (speechesCore inp).length
        = inp.speeches.length - (inp.speeches.filter isExcludedNonCentral).length ∧
    (speechesCore inp).length
        + (inp.speeches.filter isExcludedNonCentral).length = inp.speeches.length ∧
    ∀ p, p ∈ speechesCore inp ↔
      p ∈ speechesWithId inp ∧ isExcludedNonCentral p.2 = false := by
  have hcore : (speechesCore inp).length
      = (inp.speeches.filter (fun r => !isExcludedNonCentral r)).length := by
    unfold speechesCore
    exact length_filter_speeches inp (fun r => !isExcludedNonCentral r)
  have hpart := List.length_eq_length_filter_add (l := inp.speeches) isExcludedNonCentral
  have hsum : (speechesCore inp).length
      + (inp.speeches.filter isExcludedNonCentral).length = inp.speeches.length := by
    rw [hcore]
    omega
  refine ⟨by omega, hsum, ?_⟩
  intro p
  unfold speechesCore
  rw [List.mem_filter]
  simp

namespace Analysis

/-- Every paired-table row passed the nonempty filter, so its two rate
divisions had nonzero denominators (analysis.py lines 83-89). -/
theorem pairedRows_denominators_ne_zero (inp : Inputs) :
    ∀ r ∈ pairedRows inp,
      (sSub inp r.institution).length ≠ 0 ∧ (mSub inp r.institution).length ≠ 0 := by
  intro r hr
  rcases (mem_pairedRows_iff inp r).mp hr with ⟨i, _, hc, hre⟩
  push_neg at hc
  rw [hre]
  exact hc

end Analysis

open Analysis in
/-- C2 counterexample: on the dataset `inpGap` the analysis completes, the
reported (rounded) rates are `16.7` and `7.1` and the emitted gap ratio is
`2.3`, but `round(16.7 / 7.1, 1) = 2.4`: the gap ratio does not reproduce
from the two already-reported rounded rates. -/
theorem C2_gap_ratio_counterexample :
    runAnalysisE inpGap (0, 0) (0, 0) = .ok (mainNumbersPure inpGap (0, 0) (0, 0)) ∧
    (mainNumbersPure inpGap (0, 0) (0, 0)).speech_rate_core_denom_pct = 167/10 ∧
    (mainNumbersPure inpGap (0, 0) (0, 0)).minute_rate_pct = 71/10 ∧
    (mainNumbersPure inpGap (0, 0) (0, 0)).gap_ratio = 23/10 ∧
    pyRound1 ((mainNumbersPure inpGap (0, 0) (0, 0)).speech_rate_core_denom_pct
        / (mainNumbersPure inpGap (0, 0) (0, 0)).minute_rate_pct)
      ≠ (mainNumbersPure inpGap (0, 0) (0, 0)).gap_ratio := by
  have hvs : verifiedSpeechDocs inpGap = 1 := by decide
  have hcl : (speechesCore inpGap).length = 6 := by decide
  have hvm : verifiedMinuteDocs inpGap = 1 := by decide
  have hml : inpGap.minutes.length = 14 := by decide
  have hs : (mainNumbersPure inpGap (0, 0) (0, 0)).speech_rate_core_denom_pct = 167/10 := by
    show pyRound1 (100 * (verifiedSpeechDocs inpGap : ℚ)
      / ((speechesCore inpGap).length : ℚ)) = 167/10
    rw [hvs, hcl]
    have := pyRound1_eq_high (q := 100 * ((1:ℕ) : ℚ) / ((6:ℕ) : ℚ)) (n := 166)
      (by push_cast; norm_num) (by push_cast; norm_num) (by push_cast; norm_num)
    rw [this]
    norm_num
  have hm : (mainNumbersPure inpGap (0, 0) (0, 0)).minute_rate_pct = 71/10 := by
    show pyRound1 (100 * (verifiedMinuteDocs inpGap : ℚ)
      / (inpGap.minutes.length : ℚ)) = 71/10
    rw [hvm, hml]
    have := pyRound1_eq_low (q := 100 * ((1:ℕ) : ℚ) / ((14:ℕ) : ℚ)) (n := 71)
      (by push_cast; norm_num) (by push_cast; norm_num)
    rw [this]
    norm_num
  have hg : (mainNumbersPure inpGap (0, 0) (0, 0)).gap_ratio = 23/10 := by
    show pyRound1 (((verifiedSpeechDocs inpGap : ℚ) / ((speechesCore inpGap).length : ℚ))
      / ((verifiedMinuteDocs inpGap : ℚ) / (inpGap.minutes.length : ℚ))) = 23/10
    rw [hvs, hcl, hvm, hml]
    have := pyRound1_eq_low (q := ((1:ℕ) : ℚ) / ((6:ℕ) : ℚ) / (((1:ℕ) : ℚ) / ((14:ℕ) : ℚ)))
      (n := 23) (by push_cast; norm_num) (by push_cast; norm_num)
    rw [this]
    norm_num
  refine ⟨runAnalysisE_eq_ok inpGap (0, 0) (0, 0) (by decide), hs, hm, hg, ?_⟩
  rw [hs, hm, hg]
  have : pyRound1 ((167:ℚ)/10 / (71/10)) = 24/10 := by
    have := pyRound1_eq_high (q := (167:ℚ)/10 / (71/10)) (n := 23)
      (by norm_num) (by norm_num) (by norm_num)
    rw [this]
    norm_num
  rw [this]
  norm_num

open Analysis in
/-- C2 amended: the emitted gap ratio is `round(speech_rate / minute_rate, 1)`
computed from the *unrounded* rates (analysis.py line 136 divides the raw
fractions), not from the two already-reported rounded values — so it can
differ from `round(reported_speech_rate / reported_minute_rate, 1)`. -/
theorem C2_gap_ratio_from_unrounded_rates (inp : Inputs) (t u : ℚ × ℚ)
    (h : (runAnalysisE inp t u).isOk = true) :
    (mainNumbersPure inp t u).gap_ratio
      = pyRound1 ((100 * (verifiedSpeechDocs inp : ℚ) / ((speechesCore inp).length : ℚ))
          / (100 * (verifiedMinuteDocs inp : ℚ) / (inp.minutes.length : ℚ))) := by
  show pyRound1 _ = pyRound1 _
  congr 1
  rw [hundred_rate_ratio]

open Analysis in
/-- Witness for the amended C2 at a concrete completing dataset — one with no
post-2019-07 ECB minutes, which really does complete (the ECB window rates
become NaN without aborting the run). -/
theorem C2_gap_ratio_from_unrounded_rates_witness :
    (runAnalysisE inpNoEcb (0, 0) (0, 0)).isOk = true ∧
    (mainNumbersPure inpNoEcb (0, 0) (0, 0)).gap_ratio
      = pyRound1 ((100 * (verifiedSpeechDocs inpNoEcb : ℚ)
            / ((speechesCore inpNoEcb).length : ℚ))
          / (100 * (verifiedMinuteDocs inpNoEcb : ℚ) / (inpNoEcb.minutes.length : ℚ))) :=
  ⟨by decide, C2_gap_ratio_from_unrounded_rates inpNoEcb (0, 0) (0, 0) (by decide)⟩

open Analysis in
/-- C3 counterexample: on `inpOver` the analysis completes and emits a
core-denominator climate-mention rate of `200.0`: the verified speech
documents are counted over the full speech table while the denominator is the
core sample, so the reported rate is not always ≤ 100. -/
theorem C3_rate_bounds_counterexample :
    runAnalysisE inpOver (0, 0) (0, 0) = .ok (mainNumbersPure inpOver (0, 0) (0, 0)) ∧
    (mainNumbersPure inpOver (0, 0) (0, 0)).speech_rate_core_denom_pct = 200 ∧
    ¬((mainNumbersPure inpOver (0, 0) (0, 0)).speech_rate_core_denom_pct ≤ 100) := by
  have hvs : verifiedSpeechDocs inpOver = 2 := by decide
  have hcl : (speechesCore inpOver).length = 1 := by decide
  have hs : (mainNumbersPure inpOver (0, 0) (0, 0)).speech_rate_core_denom_pct = 200 := by
    show pyRound1 (100 * (verifiedSpeechDocs inpOver : ℚ)
      / ((speechesCore inpOver).length : ℚ)) = 200
    rw [hvs, hcl]
    have := pyRound1_eq_low (q := 100 * ((2:ℕ) : ℚ) / ((1:ℕ) : ℚ)) (n := 2000)
      (by push_cast; norm_num) (by push_cast; norm_num)
    rw [this]
    norm_num
  exact ⟨runAnalysisE_eq_ok inpOver (0, 0) (0, 0) (by decide), hs, by rw [hs]; norm_num⟩

open Analysis in
/-- C3 amended: on every dataset on which the analysis completes *and* whose
verified document counts are consistent with the staged tables (each verified
count bounded by its stage-1 count and by its applicable rate denominator),
both reported false-positive rates and both reported climate-mention rates lie
in `[0, 100]` after rounding. -/
theorem C3_reported_rates_in_unit_interval (inp : Inputs) (t u : ℚ × ℚ)
    (hok : (runAnalysisE inp t u).isOk = true)
    (h1 : verifiedSpeechDocs inp ≤ stage1SNunique inp)
    (h2 : verifiedMinuteDocs inp ≤ stage1MNunique inp)
    (h3 : verifiedSpeechDocs inp ≤ (speechesCore inp).length)
    (h4 : verifiedMinuteDocs inp ≤ inp.minutes.length) :
    (0 ≤ (mainNumbersPure inp t u).speech_false_positive_rate_pct ∧
        (mainNumbersPure inp t u).speech_false_positive_rate_pct ≤ 100) ∧
    (0 ≤ (mainNumbersPure inp t u).minute_false_positive_rate_pct ∧
        (mainNumbersPure inp t u).minute_false_positive_rate_pct ≤ 100) ∧
    (0 ≤ (mainNumbersPure inp t u).speech_rate_core_denom_pct ∧
        (mainNumbersPure inp t u).speech_rate_core_denom_pct ≤ 100) ∧
    (0 ≤ (mainNumbersPure inp t u).minute_rate_pct ∧
        (mainNumbersPure inp t u).minute_rate_pct ≤ 100) := by
  rw [runAnalysisE_isOk_iff] at hok
  obtain ⟨-, -, -, hmne, hs1, hm1, hcore, -⟩ := hok
  have hminlen : inp.minutes.length ≠ 0 := fun h => hmne (List.length_eq_zero.mp h)
  have bound : ∀ a b : ℕ, a ≤ b → b ≠ 0 →
      0 ≤ 100 * (1 - (a : ℚ) / (b : ℚ)) ∧ 100 * (1 - (a : ℚ) / (b : ℚ)) ≤ 100 := by
    intro a b hab hb
    have hbpos : (0 : ℚ) < b := by
      have : 0 < b := Nat.pos_of_ne_zero hb
      exact_mod_cast this
    have habq : (a : ℚ) ≤ b := by exact_mod_cast hab
    have h01 : (a : ℚ) / b ≤ 1 := (div_le_one hbpos).mpr habq
    have h00 : 0 ≤ (a : ℚ) / b := by positivity
    constructor <;> nlinarith
  have bound' : ∀ a b : ℕ, a ≤ b → b ≠ 0 →
      0 ≤ 100 * (a : ℚ) / (b : ℚ) ∧ 100 * (a : ℚ) / (b : ℚ) ≤ 100 := by
    intro a b hab hb
    have hbpos : (0 : ℚ) < b := by
      have : 0 < b := Nat.pos_of_ne_zero hb
      exact_mod_cast this
    have habq : (a : ℚ) ≤ b := by exact_mod_cast hab
    have h01 : (a : ℚ) / b ≤ 1 := (div_le_one hbpos).mpr habq
    have h00 : 0 ≤ (a : ℚ) / b := by positivity
    rw [mul_div_assoc]
    constructor <;> nlinarith
  refine ⟨?_, ?_, ?_, ?_⟩
  · obtain ⟨hl, hr⟩ := bound _ _ h1 hs1
    exact pyRound1_mem_Icc hl hr
  · obtain ⟨hl, hr⟩ := bound _ _ h2 hm1
    exact pyRound1_mem_Icc hl hr
  · obtain ⟨hl, hr⟩ := bound' _ _ h3 hcore
    exact pyRound1_mem_Icc hl hr
  · obtain ⟨hl, hr⟩ := bound' _ _ h4 hminlen
    exact pyRound1_mem_Icc hl hr

open Analysis in
/-- Witness for the amended C3 at a concrete completing dataset — again one
with no post-2019-07 ECB minutes, which completes with NaN ECB window rates
but well-bounded false-positive and climate-mention rates. -/
theorem C3_reported_rates_in_unit_interval_witness :
    (runAnalysisE inpNoEcb (0, 0) (0, 0)).isOk = true ∧
    (0 ≤ (mainNumbersPure inpNoEcb (0, 0) (0, 0)).speech_false_positive_rate_pct ∧
        (mainNumbersPure inpNoEcb (0, 0) (0, 0)).speech_false_positive_rate_pct ≤ 100) ∧
    (0 ≤ (mainNumbersPure inpNoEcb (0, 0) (0, 0)).minute_false_positive_rate_pct ∧
        (mainNumbersPure inpNoEcb (0, 0) (0, 0)).minute_false_positive_rate_pct ≤ 100) ∧
    (0 ≤ (mainNumbersPure inpNoEcb (0, 0) (0, 0)).speech_rate_core_denom_pct ∧
        (mainNumbersPure inpNoEcb (0, 0) (0, 0)).speech_rate_core_denom_pct ≤ 100) ∧
    (0 ≤ (mainNumbersPure inpNoEcb (0, 0) (0, 0)).minute_rate_pct ∧
        (mainNumbersPure inpNoEcb (0, 0) (0, 0)).minute_rate_pct ≤ 100) :=
  ⟨by decide,
   C3_reported_rates_in_unit_interval inpNoEcb (0, 0) (0, 0)
     (by decide) (by decide) (by decide) (by decide) (by decide)⟩

open Analysis in
/-- C4: the claim's abort policy holds for every pure-Python zero denominator
(for instance the empty stage-1 speech table of `inpZeroStage1` aborts the
run, last conjunct), and the paired table's divisions are pre-filtered to
nonzero denominators — but the code breaks the policy at the two ECB window
rates: on `inpNoEcb`, a dataset with no ECB minutes on which every abort
guard passes, the run completes with both Lagarde windows empty, because
analysis.py lines 147 and 152 divide a numpy `Series.sum()` scalar by zero,
which silently yields `NaN` (modelled `none`) in the emitted record instead
of raising.  A zero denominator is thus silently mapped to NaN, contradicting
the claim and spec §7(b). -/
theorem C4_empty_ecb_window_emits_nan_instead_of_aborting :
    (runAnalysisE inpNoEcb (0, 0) (0, 0)).isOk = true ∧
    ecbLagardeMain inpNoEcb = [] ∧
    ecbLagardeStrict inpNoEcb = [] ∧
    (mainNumbersPure inpNoEcb (0, 0) (0, 0)).ecb_lagarde_rate_pct = none ∧
    (mainNumbersPure inpNoEcb (0, 0)
        (0, 0)).ecb_lagarde_rate_if_strict_appointment_window_pct = none ∧
    (runAnalysisE inpZeroStage1 (0, 0) (0, 0)).isOk = false :=
  ⟨by decide, by decide, by decide, rfl, rfl, by decide⟩

namespace Analysis

theorem mem_ecbLagardeMain_iff (inp : Inputs) (p : ℤ × MinuteRow) :
    p ∈ ecbLagardeMain inp ↔
      p ∈ ecbMinutes inp ∧ ∃ d, p.2.date = some d ∧ LAGARDE_COUNT_WINDOW_START ≤ d := by
  unfold ecbLagardeMain
  rw [List.mem_filter]
  refine and_congr_right fun _ => ?_
  cases hd : p.2.date with
  | none => simp
  | some d => simp

theorem mem_ecbLagardeStrict_iff (inp : Inputs) (p : ℤ × MinuteRow) :
    p ∈ ecbLagardeStrict inp ↔
      p ∈ ecbMinutes inp ∧ ∃ d, p.2.date = some d ∧ LAGARDE_APPOINTMENT_DATE ≤ d := by
  unfold ecbLagardeStrict
  rw [List.mem_filter]
  refine and_congr_right fun _ => ?_
  cases hd : p.2.date with
  | none => simp
  | some d => simp

end Analysis

open Analysis in
/-- C5: the main Lagarde-window table contains exactly the ECB minutes whose
parsed date is on or after the count-window start (2019-07-01): earlier or
unparseable dates are excluded; likewise the strict variant with the
appointment date (2019-11-01).  The emitted record reports, for each window,
its own total (the window size), its own verified numerator (window minutes
whose id is a verified ECB minute id) and its own rate computed from that
total (`NaN`, i.e. `none`, when the window is empty); the strict window is
contained in the main window and each numerator is bounded by its total. -/
theorem C5_ecb_lagarde_window_variants (inp : Inputs) (t u : ℚ × ℚ) :
    (∀ p, p ∈ ecbLagardeMain inp ↔
        p ∈ ecbMinutes inp ∧ ∃ d, p.2.date = some d ∧ LAGARDE_COUNT_WINDOW_START ≤ d) ∧
    (∀ p, p ∈ ecbLagardeStrict inp ↔
        p ∈ ecbMinutes inp ∧ ∃ d, p.2.date = some d ∧ LAGARDE_APPOINTMENT_DATE ≤ d) ∧
    (∀ p ∈ ecbLagardeStrict inp, p ∈ ecbLagardeMain inp) ∧
    (mainNumbersPure inp t u).ecb_lagarde_total = ((ecbLagardeMain inp).length : ℤ) ∧
    (mainNumbersPure inp t u).ecb_lagarde_docs
      = ((((ecbLagardeMain inp).filter
            (fun p => decide (p.1 ∈ ecbIds inp))).length : ℤ)) ∧
    (mainNumbersPure inp t u).ecb_lagarde_rate_pct
      = (if (ecbLagardeMain inp).length = 0 then none
         else some (pyRound1 (100 * (((ecbLagardeMain inp).filter
            (fun p => decide (p.1 ∈ ecbIds inp))).length : ℚ)
          / ((ecbLagardeMain inp).length : ℚ)))) ∧
    (mainNumbersPure inp t u).ecb_lagarde_total_if_strict_appointment_window
      = ((ecbLagardeStrict inp).length : ℤ) ∧
    (mainNumbersPure inp t u).ecb_lagarde_rate_if_strict_appointment_window_pct
      = (if (ecbLagardeStrict inp).length = 0 then none
         else some (pyRound1 (100 * (((ecbLagardeStrict inp).filter
            (fun p => decide (p.1 ∈ ecbIds inp))).length : ℚ)
          / ((ecbLagardeStrict inp).length : ℚ)))) ∧
    ((ecbLagardeMain inp).filter (fun p => decide (p.1 ∈ ecbIds inp))).length
        ≤ (ecbLagardeMain inp).length ∧
    ((ecbLagardeStrict inp).filter (fun p => decide (p.1 ∈ ecbIds inp))).length
        ≤ (ecbLagardeStrict inp).length := by
  refine ⟨mem_ecbLagardeMain_iff inp, mem_ecbLagardeStrict_iff inp, ?_, rfl, rfl, rfl, rfl,
    rfl, List.length_filter_le _ _, List.length_filter_le _ _⟩
  intro p hp
  rcases (mem_ecbLagardeStrict_iff inp p).mp hp with ⟨hmem, d, hd, hle⟩
  refine (mem_ecbLagardeMain_iff inp p).mpr ⟨hmem, d, hd, ?_⟩
  unfold LAGARDE_APPOINTMENT_DATE at hle
  unfold LAGARDE_COUNT_WINDOW_START
  omega

open Analysis in
/-- Witness for C5: in `inpSmall` the minute dated 2020-01-01 lies in the
strict appointment window and hence also in the main count window, while the
minute dated 2019-08-01 lies only in the main window. -/
theorem C5_ecb_lagarde_window_variants_witness :
    ((0 : ℤ), mnRow (some "European Central Bank") (some 20200101) 2020)
        ∈ ecbLagardeStrict inpSmall ∧
    ((0 : ℤ), mnRow (some "European Central Bank") (some 20200101) 2020)
        ∈ ecbLagardeMain inpSmall ∧
    ((1 : ℤ), mnRow (some "European Central Bank") (some 20190801) 2019)
        ∉ ecbLagardeStrict inpSmall ∧
    ((1 : ℤ), mnRow (some "European Central Bank") (some 20190801) 2019)
        ∈ ecbLagardeMain inpSmall :=
  ⟨by decide,
   (C5_ecb_lagarde_window_variants inpSmall (0, 0) (0, 0)).2.2.1 _ (by decide),
   by decide, by decide⟩

open Analysis in
/-- C9: column validation fails iff at least one required column is absent;
the error names the source file and contains every missing required column
(and only those); when all required columns are present it returns `ok`. -/
theorem C9_require_columns_iff_missing (name : String) (columns required : List String) :
    ((∃ c ∈ required, c ∉ columns) →
      requireColumns name columns required
        = .error (name, required.filter (fun c => decide (c ∉ columns))) ∧
      (∀ c, c ∈ required.filter (fun c => decide (c ∉ columns)) ↔
        c ∈ required ∧ c ∉ columns)) ∧
    ((∀ c ∈ required, c ∈ columns) → requireColumns name columns required = .ok ()) ∧
    ((∃ e, requireColumns name columns required = .error e) ↔
      ∃ c ∈ required, c ∉ columns) := by
  have hmem : ∀ c, c ∈ required.filter (fun c => decide (c ∉ columns)) ↔
      c ∈ required ∧ c ∉ columns := by
    intro c
    rw [List.mem_filter]
    simp
  have hne : (∃ c ∈ required, c ∉ columns) ↔
      ¬(required.filter (fun c => decide (c ∉ columns))).isEmpty = true := by
    rw [List.isEmpty_iff, List.filter_eq_nil_iff]
    push_neg
    simp
  refine ⟨?_, ?_, ?_⟩
  · intro hex
    refine ⟨?_, hmem⟩
    unfold requireColumns
    rw [if_neg (hne.mp hex)]
  · intro hall
    unfold requireColumns
    rw [if_pos]
    rw [List.isEmpty_iff, List.filter_eq_nil_iff]
    intro c hc
    simpa using hall c hc
  · constructor
    · rintro ⟨e, he⟩
      by_contra hno
      push_neg at hno
      unfold requireColumns at he
      rw [if_pos] at he
      · exact Except.noConfusion he
      · rw [List.isEmpty_iff, List.filter_eq_nil_iff]
        intro c hc
        simpa using hno c hc
    · intro hex
      refine ⟨(name, required.filter (fun c => decide (c ∉ columns))), ?_⟩
      unfold requireColumns
      rw [if_neg (hne.mp hex)]

open Analysis in
/-- Witness for C9: with the `minutes_raw.csv` schema check of analysis.py
line 55 against a table having only `year` and `institution`, validation
fails naming the file and the missing columns; with all required columns
present it succeeds. -/
theorem C9_require_columns_iff_missing_witness :
    requireColumns "minutes_raw.csv" ["year", "institution"]
        ["Date", "year", "institution", "Language", "has_climate"]
      = .error ("minutes_raw.csv",
          ["Date", "year", "institution", "Language", "has_climate"].filter
            (fun c => decide (c ∉ ["year", "institution"]))) ∧
    requireColumns "speeches_keyword_filtered.csv" ["speech_id", "text"] ["speech_id"]
      = .ok () :=
  ⟨((C9_require_columns_iff_missing "minutes_raw.csv" ["year", "institution"]
      ["Date", "year", "institution", "Language", "has_climate"]).1
      ⟨"Date", by decide, by decide⟩).1,
   (C9_require_columns_iff_missing "speeches_keyword_filtered.csv"
      ["speech_id", "text"] ["speech_id"]).2.1 (by decide)⟩

open Figures in
/-- C7: the claim that every renderer tolerates missing institutions is right
about the code's intent (every other renderer guards empty groups with
`if total > 0 else 0` or `np.nan`), but `fig_first_mention_lag` computes
`mean_lag = sum(...) / len(data)` (figures.py line 322) without a guard: on a
dataset in which no institution has both a qualifying speech and a qualifying
minute — here one speech excerpt from the Bank of England and one minute
excerpt from the Federal Reserve — the renderer raises `ZeroDivisionError`
instead of omitting or zeroing the missing entries. -/
theorem C7_first_mention_lag_crashes_on_disjoint_institutions :
    figFirstMentionLag
        [exSp 0 (some "Bank of England") (some 2), exMn 0 (some "Federal Reserve") (some 2)]
        [{ year := 2000 }] [{ year := 2001 }]
      = .error "ZeroDivisionError: division by zero" := rfl

theorem pyRound3_eq_low {q : ℚ} {n : ℤ} (hl : (n : ℚ) ≤ 1000 * q)
    (hu : 1000 * q - n < 1/2) : pyRound3 q = (n : ℚ) / 1000 := by
  unfold pyRound3
  rw [roundHalfEven_eq_low hl hu]

namespace Stats

theorem mannwhitneyuTwoSided_singletons :
    mannwhitneyuTwoSided [1] [2] = (0, 1) := by
  have hu : mannwhitneyUStat [1] [2] = 0 := by norm_num [mannwhitneyUStat]
  have h1 : ((List.range (2:ℕ)).sublists).filter (fun s => decide (s.length = 1))
      = [[0], [1]] := by decide
  unfold mannwhitneyuTwoSided
  rw [hu]
  refine Prod.ext rfl ?_
  norm_num [mannwhitneyExactPTwoSided, hu, h1, min_def]

end Stats

open Analysis Figures Stats in
/-- C6 counterexample: on the dataset `inpSmall` the analysis completes, the
statistical tester's emitted `mannwhitney_p` — with the library call
instantiated by the spec-modelled exact two-sided test on the program's own
samples (`[1]` vs `[2]`) — is `1.0`, yet the commitment-level figure's title
displays the baked-in constant `0.029` (figures.py line 274): the displayed
p-value does not equal the emitted one. -/
theorem C6_commitment_figure_p_counterexample :
    (figCommitmentGrouped inpSmall.ex).title_mw_p = 29/1000 ∧
    (runAnalysisE inpSmall (0, 0)
        (mannwhitneyuTwoSided (speechLevels inpSmall) (minuteLevels inpSmall))).isOk
      = true ∧
    (mainNumbersPure inpSmall (0, 0)
        (mannwhitneyuTwoSided (speechLevels inpSmall) (minuteLevels inpSmall))).mannwhitney_p
      = 1 ∧
    (figCommitmentGrouped inpSmall.ex).title_mw_p
      ≠ (mainNumbersPure inpSmall (0, 0)
          (mannwhitneyuTwoSided (speechLevels inpSmall) (minuteLevels inpSmall))).mannwhitney_p := by
  have hsp : speechLevels inpSmall = [1] := by decide
  have hmn : minuteLevels inpSmall = [2] := by decide
  have hp : (mainNumbersPure inpSmall (0, 0)
      (mannwhitneyuTwoSided (speechLevels inpSmall) (minuteLevels inpSmall))).mannwhitney_p
      = 1 := by
    show pyRound3 (mannwhitneyuTwoSided (speechLevels inpSmall) (minuteLevels inpSmall)).2 = 1
    rw [hsp, hmn, mannwhitneyuTwoSided_singletons]
    have := pyRound3_eq_low (q := (1:ℚ)) (n := 1000) (by norm_num) (by norm_num)
    rw [this]
    norm_num
  refine ⟨rfl, by decide, hp, ?_⟩
  rw [hp]
  show (29:ℚ)/1000 ≠ 1
  norm_num

open Figures in
/-- C6 amended: the tables renderer does consume the emitter's record
(tables.py line 128 reads `main_numbers.json` back and `table1_overview` is a
function of that record alone), but the figure renderers re-read the raw
tables and recompute their own statistics, and the Mann-Whitney p-value shown
by the commitment-level figure is the constant `0.029` hardcoded in its title
string: it is the same for every input dataset, so it equals the emitted
`mannwhitney_p` only on datasets for which that emitted value happens to be
`0.029`. -/
theorem C6_commitment_figure_p_is_constant (ex1 ex2 : List ExRow) :
    (figCommitmentGrouped ex1).title_mw_p = 29/1000 ∧
    (figCommitmentGrouped ex1).title_mw_p = (figCommitmentGrouped ex2).title_mw_p :=
  ⟨rfl, rfl⟩

namespace Analysis

theorem keyLe_total (a b : String × PyVal) : keyLe a b = true ∨ keyLe b a = true :=
  strLe_total a.1 b.1

end Analysis

set_option maxHeartbeats 1600000 in
open Analysis Tables in
/-- C10: the pipeline's outputs are a pure function of the input tables (and
of the two library test results), every write is a whole-file overwrite, and a
run that fails writes nothing — so running the pipeline a second time on the
same inputs leaves the output directory byte-identical (first conjunct).  The
serialized metrics record lists its keys in alphabetical order (second
conjunct: adjacent keys of the emitted record are sorted), and sorting
changes neither the key set nor the record size (remaining conjuncts). -/
theorem C10_rerun_idempotent_and_keys_sorted (fs : FsState) (inp : Inputs)
    (t u : ℚ × ℚ) (m : MainNumbers) :
    applyRunTables (applyRunTables fs inp t u) inp t u = applyRunTables fs inp t u ∧
    List.Chain' (fun a b => keyLe a b = true) (serializeMainNumbers m) ∧
    (∀ k, k ∈ (serializeMainNumbers m).map Prod.fst ↔
      k ∈ (mainNumbersAssoc m).map Prod.fst) ∧
    (serializeMainNumbers m).length = (mainNumbersAssoc m).length := by
  refine ⟨?_, ?_, ?_, ?_⟩
  · cases h : runAnalysisE inp t u with
    | error e => simp only [applyRunTables, h]
    | ok m' =>
      simp only [applyRunTables, h]
      funext q
      simp only [writeFs]
      split_ifs <;> rfl
  · rewrite [serializeMainNumbers]
    with_reducible exact chain'_sortLe keyLe keyLe_total (mainNumbersAssoc m)
  · intro k
    rewrite [serializeMainNumbers]
    with_reducible exact mem_map_sortLe keyLe (mainNumbersAssoc m) Prod.fst k
  · rewrite [serializeMainNumbers]
    with_reducible exact length_sortLe keyLe (mainNumbersAssoc m)
